import Mathlib

/-!
Shallow embedding of the msantino/postgres_plugin repository (Airflow plugin:
hooks and operators moving data between PostgreSQL, S3 and AWS Secrets
Manager), together with theorems settling the frozen claims about it.

Conventions of the embedding:
* Python dict subscript access that can fail is modelled with `Except`
  (`Except.error` standing for a raised exception); a key that may be absent
  is an `Option` field, with `none` meaning the key is missing.
* Python `x or y` on strings/ints is modelled by `pyOrStr` / `pyOrInt`
  (falsy values: `None`, the empty string, `0`).
* External collaborators (the AWS secretsmanager client, psycopg2, the S3
  hook, the bash process) are parameters of the modelled functions: their
  outcome is an input, the plugin code around them is translated faithfully.
* Operator `execute` methods are modelled as functions returning the
  Python-level outcome together with the ordered trace of the observable
  actions the method body performs (connection opens, SQL runs, inserts,
  commits, uploads, ...).
-/

namespace PostgresPlugin

/-! ## src/hooks/aws_secrets_manager_hook.py -/

/-- Outcome of the botocore `get_secret_value` call: either a `ClientError`
carrying an error code, or a response dict whose `SecretString` /
`SecretBinary` keys may each be present or absent. -/
inductive SMResponse
  | clientError (code : String)
  | ok (secretString : Option String) (secretBinary : Option String)
deriving DecidableEq, Repr

/-- Result of a Python call: a returned value, a bare `return`/fall-through
returning `None`, or an uncaught exception. -/
inductive PyResult (α : Type)
  | ret (a : α)
  | retNone
  | raised (msg : String)
deriving DecidableEq, Repr

/-- Model of `AwsSecretsManagerHook.get_secret`. On `ClientError` the except-branch
logs, prints a message selected by the error code, and falls through: no
`raise` appears in the handler, so the method returns `None`. On success it
returns `SecretString` when present, else `SecretBinary` (a `KeyError`
escapes when neither key is in the response). -/
def get_secret : SMResponse → PyResult String
  | SMResponse.clientError _ => PyResult.retNone
  | SMResponse.ok (some s) _ => PyResult.ret s
  | SMResponse.ok none (some b) => PyResult.ret b
  | SMResponse.ok none none => PyResult.raised "KeyError: SecretBinary"

/-- True iff the call terminated with an uncaught exception. -/
def raisesError : PyResult String → Bool
  | PyResult.raised _ => true
  | _ => false

/-- The message printed by `get_secret` for a given client-error code
(the three if/elif branches of the except-handler); `none` when the code
matches no branch. `secretName` is the hook attribute, `errStr` is `str(e)`. -/
def clientErrorMessage (secretName : String) (code : String) (errStr : String) :
    Option String :=
  if code = "ResourceNotFoundException" then
    some ("The requested secret " ++ secretName ++ " was not found")
  else if code = "InvalidRequestException" then
    some ("The request was invalid due to: " ++ errStr)
  else if code = "InvalidParameterException" then
    some ("The request had invalid params: " ++ errStr)
  else none

/-! ## src/hooks/postgres_hook.py -/

/-- The parsed secret payload (`ast.literal_eval` of the secret string),
in the AWS RDS rotation-lambda shape. String-valued keys the plugin reads
are modelled as required fields; `port` keeps the full dict behaviour:
`none` = key missing, `some none` = value `None`, `some (some n)` = integer. -/
structure SecretDict where
  username : String
  password : String
  host : String
  dbname : String
  port : Option (Option Int)
  dbInstanceIdentifier : String
deriving DecidableEq, Repr

/-- The keyword arguments handed to `psycopg2.connect`. -/
structure ConnArgs where
  host : String
  user : String
  password : String
  dbname : String
  port : Int
deriving DecidableEq, Repr

/-- Python `x or y` where `x` is an optional string (`None` and `""` are
falsy). -/
def pyOrStr : Option String → String → String
  | none, d => d
  | some s, d => if s = "" then d else s

/-- Python `x or y` where `x` is an optional int (`None` and `0` are
falsy). -/
def pyOrInt : Option Int → Int → Int
  | none, d => d
  | some n, d => if n = 0 then d else n

/-- Model of `PostgresWithSecretsManagerCredentialsHook.get_conn`, after the secret
has been fetched and parsed: the log line subscripts
`aws_secret_key[port]`, so a missing `port` key raises `KeyError` before
any connection is attempted; otherwise `conn_args` is built with
`self.host or secret host`, `self.schema or secret dbname`, and
`secret port or 5432`, and handed to `psycopg2.connect`. `hookSchema` and
`hookHost` are the caller overrides stored on the hook (`None` when not
supplied). -/
def get_conn (hookSchema hookHost : Option String) (s : SecretDict) :
    Except String ConnArgs :=
  match s.port with
  | none => Except.error "KeyError: port"
  | some p =>
      Except.ok
        ⟨pyOrStr hookHost s.host, s.username, s.password,
         pyOrStr hookSchema s.dbname, pyOrInt p 5432⟩

/-! ## src/operators/postgres_operator.py — hook construction -/

/-- A `src_postgres_conn` / `dest_postgres_conn` argument: a Python dict
with required `aws_conn_id` / `aws_secret_name` keys and optional
`database` / `host` keys (`none` = key absent). -/
structure PyConnRef where
  aws_conn_id : String
  aws_secret_name : String
  database : Option String
  host : Option String
deriving DecidableEq, Repr

/-- The constructor arguments of a `PostgresWithSecretsManagerCredentialsHook`. -/
structure HookArgs where
  aws_conn_id : String
  aws_secret_name : String
  schema : Option String
  host : Option String
deriving DecidableEq, Repr

/-- Model of the `PostgresToPostgresOperator.execute` hook-construction prefix. The
source hook pops `database` and `host` from `src_postgres_conn`; the
destination hook then pops `database` and `host` from `src_postgres_conn`
AGAIN (the source dict, not `dest_postgres_conn`), where the keys were
already removed, so a second `pop` yields the default `None`. -/
def pgToPg_hooks (src dest : PyConnRef) : HookArgs × HookArgs :=
  let db1 := src.database
  let src1 : PyConnRef := { src with database := none }
  let h1 := src1.host
  let src2 : PyConnRef := { src1 with host := none }
  let srcHook : HookArgs := ⟨src.aws_conn_id, src.aws_secret_name, db1, h1⟩
  let db2 := src2.database
  let src3 : PyConnRef := { src2 with database := none }
  let h2 := src3.host
  let destHook : HookArgs := ⟨dest.aws_conn_id, dest.aws_secret_name, db2, h2⟩
  (srcHook, destHook)

/-! ## src/operators/postgres_dump_operator.py — delete_file -/

/-- Outcome of `os.remove(file_name)`: success, or an `OSError`
(`FileNotFoundError` included, it is a subclass of `OSError`). -/
inductive RemoveResult
  | removed
  | osError (strerror : String)
deriving DecidableEq, Repr

/-- Model of `PostgresDumpOperator.delete_file`: wraps `os.remove` in
`try/except OSError`; the handler only logs, so no `OSError` escapes. The
returned list is the log lines emitted. -/
def delete_file (r : RemoveResult) : Except String (List String) :=
  match r with
  | RemoveResult.removed =>
      Except.ok ["Removing file safely", "File removed successfully."]
  | RemoveResult.osError e =>
      Except.ok ["Removing file safely", "Error: " ++ e]

/-! ## Operator execute bodies as traces of observable actions -/

/-- Observable actions performed by the operator `execute` bodies. `runPre`
and `runPost` mark the pre- and post-operator call sites (`dest_pg.run`);
`getFirst` is the `pgsql.get_first` post-operator call site of
`S3ToPostgresOperator`. -/
inductive Ev
  | openConn (which : String)
  | closeConn (which : String)
  | cursorExec (sql : String)
  | runPre (sql : String)
  | runPost (sql : String)
  | fetchAll (n : Nat)
  | insertRows (table : String) (n : Nat)
  | copyToFile
  | compressFile
  | s3Upload
  | s3ListKeys
  | s3Read
  | skipHeader
  | setAutocommit (b : Bool)
  | copyFromFile
  | commit
  | getFirst (sql : String)
deriving DecidableEq, Repr

/-- True iff the action closes/releases a database connection. -/
def isCloseEv : Ev → Bool
  | Ev.closeConn _ => true
  | _ => false

/-- True iff the action is an explicit transaction commit. -/
def isCommitEv : Ev → Bool
  | Ev.commit => true
  | _ => false

/-- Model of `PostgresToPostgresOperator.execute` after the two hooks are built:
open the source connection, run the query on a cursor, run the
pre-operator when given, `fetchall`; when zero rows were fetched, log and
`return`; otherwise `insert_rows` on the destination (whose outcome
`insertRes` is an input: the Airflow hook call may raise) and then the
post-operator when given. No branch closes the source connection. -/
def pgToPg_execute (sql : String) (pre post : Option String) (totalRows : Nat)
    (table : String) (insertRes : Except String Unit) :
    Except String Unit × List Ev :=
  let t1 := [Ev.openConn "src", Ev.cursorExec sql]
  let t2 := t1 ++ (match pre with | some p => [Ev.runPre p] | none => [])
  let t3 := t2 ++ [Ev.fetchAll totalRows]
  if totalRows = 0 then (Except.ok (), t3)
  else
    let t4 := t3 ++ [Ev.insertRows table totalRows]
    match insertRes with
    | Except.error e => (Except.error e, t4)
    | Except.ok () =>
        (Except.ok (),
         t4 ++ (match post with | some p => [Ev.runPost p] | none => []))

/-- Model of `PostgresToS3Operator.execute`: open the source connection, stream the
query into a temp file with `cursor.copy_to` (`copyRes` is the outcome; on
exception the body re-raises `AirflowException(str(e))`), optionally gzip
the file, `load_file` it to S3 and `list_keys` the prefix. No branch closes
the source connection. -/
def pgToS3_execute (copyRes : Except String Unit) (compress : Bool) :
    Except String Unit × List Ev :=
  let t1 := [Ev.openConn "src", Ev.copyToFile]
  match copyRes with
  | Except.error e => (Except.error ("AirflowException: " ++ e), t1)
  | Except.ok () =>
      (Except.ok (),
       t1 ++ (if compress then [Ev.compressFile] else [])
          ++ [Ev.s3Upload, Ev.s3ListKeys])

/-- Model of `S3ToPostgresOperator.execute`: `read_key` from S3 into a temp file
(`readRes`; on exception an `AirflowException` is raised), skip the header
line, open the destination connection, set `autocommit = True` on it, run
the pre-operator when given, `copy_from` the rest of the file (`copyRes`;
on exception an `AirflowException` is raised and no commit happens), then
`commit`, then the post-operator via `get_first` when given. No branch
closes the destination connection. -/
def s3ToPg_execute (readRes : Except String Unit) (pre post : Option String)
    (copyRes : Except String Unit) : Except String Unit × List Ev :=
  match readRes with
  | Except.error e => (Except.error ("AirflowException: " ++ e), [Ev.s3Read])
  | Except.ok () =>
      let t1 := [Ev.s3Read, Ev.skipHeader, Ev.openConn "dest",
                 Ev.setAutocommit true]
      let t2 := t1 ++ (match pre with | some p => [Ev.runPre p] | none => [])
      let t3 := t2 ++ [Ev.copyFromFile]
      match copyRes with
      | Except.error e => (Except.error ("AirflowException: " ++ e), t3)
      | Except.ok () =>
          (Except.ok (),
           t3 ++ [Ev.commit]
              ++ (match post with | some p => [Ev.getFirst p] | none => []))

/-! ## src/operators/postgres_dump_operator.py -/

/-- Model of `os.environ`, as an association list; the head binding for a key is the
current one. -/
def Env : Type := List (String × String)

/-- Assignment `os.environ[k] = v`. -/
def envSet (env : Env) (k v : String) : Env := (k, v) :: env

/-- Lookup of `os.environ.get(k)`. -/
def envGet (env : Env) (k : String) : Option String := List.lookup k env

/-- A chunk of a Python format string: literal text or a `\x7bname\x7d`
placeholder. -/
inductive Chunk
  | lit (s : String)
  | ph (name : String)
deriving DecidableEq, Repr

/-- Python `str.format` with keyword arguments: placeholders are replaced
by their keyword value (`KeyError` when absent); keyword arguments that no
placeholder references are ignored. -/
def pyFormat : List Chunk → (String → Option String) → Except String String
  | [], _ => Except.ok ""
  | Chunk.lit s :: rest, kw => (pyFormat rest kw).map (fun t => s ++ t)
  | Chunk.ph n :: rest, kw =>
      match kw n with
      | none => Except.error ("KeyError: " ++ n)
      | some v => (pyFormat rest kw).map (fun t => v ++ t)

/-- The `bash_command` template of `extract_dump`, chunked: verbose tar
format dump with host, user, dbname, output file and extra parameters as
placeholders. There is no password placeholder. -/
def pgDumpTemplate : List Chunk :=
  [Chunk.lit "pg_dump -v -Ft -h ", Chunk.ph "host",
   Chunk.lit " -U ", Chunk.ph "user",
   Chunk.lit " -d ", Chunk.ph "dbname",
   Chunk.lit " -f ", Chunk.ph "filename",
   Chunk.lit " ", Chunk.ph "dump_extra_parameters"]

/-- The keyword arguments of the `.format` call in `extract_dump`. The
source passes a stray `password=` keyword whose value is the secret HOST
(not the password); the template references no `password` placeholder, so
`.format` ignores it either way. -/
def pgDumpKwargs (s : SecretDict) (db_name filename extra : String) :
    String → Option String :=
  fun k =>
    if k = "host" then some s.host
    else if k = "user" then some s.username
    else if k = "dbname" then some db_name
    else if k = "password" then some s.host
    else if k = "filename" then some filename
    else if k = "dump_extra_parameters" then some extra
    else none

/-- Model of `PostgresDumpOperator.extract_dump`: create a temp file (its path is
the input `dump_file`), set `os.environ[PGPASSWORD]` to the secret
password, build the `pg_dump` command with `.format`, run it through
`BashHook` (`bashRes`, a function of the command string), and return the
temp-file path. The environment assignment is never reverted. -/
def extract_dump (s : SecretDict) (db_name dump_file extra : String)
    (bashRes : String → Except String Unit) (env : Env) :
    Except String String × Env :=
  let env1 := envSet env "PGPASSWORD" s.password
  match pyFormat pgDumpTemplate (pgDumpKwargs s db_name dump_file extra) with
  | Except.error e => (Except.error e, env1)
  | Except.ok cmd =>
      match bashRes cmd with
      | Except.error e => (Except.error e, env1)
      | Except.ok () => (Except.ok dump_file, env1)

/-- The names bound at module scope in
`src/operators/postgres_dump_operator.py`: its imports and its top-level
definitions. (`AWSKMSHook` is not among them, and it is no Python
builtin.) -/
def dumpModuleNames : List String :=
  ["logging", "os", "ast", "hashlib", "datetime", "NamedTemporaryFile",
   "AwsSecretsManagerHook", "BashHook", "apply_defaults", "S3Hook",
   "BaseOperator", "AirflowException", "PostgresDumpOperator"]

/-- Model of `PostgresDumpOperator.encrypt_dump`: the try-block evaluates the name
`AWSKMSHook`; when the name is not bound at module scope this raises
`NameError`, which the `except Exception` handler catches and re-raises as
`AirflowException(str(e))`. `kmsEncrypt` models the would-be hook call if
the name resolved (its failure is wrapped the same way). -/
def encrypt_dump (kmsEncrypt : String → String → Except String Unit)
    (dump_file_name enc_file : String) : Except String String :=
  let body : Except String String :=
    if "AWSKMSHook" ∈ dumpModuleNames then
      (kmsEncrypt dump_file_name enc_file).map (fun _ => enc_file)
    else Except.error "NameError: name AWSKMSHook is not defined"
  match body with
  | Except.ok r => Except.ok r
  | Except.error e => Except.error ("AirflowException: " ++ e)

/-- The stages of `PostgresDumpOperator.execute`, in source order. -/
inductive DumpStage
  | secretFetch
  | extractDump
  | dumpMd5
  | encryptDump
  | encryptedMd5
  | sendS3
  | cleanup
deriving DecidableEq, Repr

/-- Model of `PostgresDumpOperator.execute`: fetch and parse the secret (the parsed
result is the input `s`), `extract_dump`, md5 of the dump,
`encrypt_dump`, md5 of the encrypted file, send the three artifacts to S3,
delete the four temp files, return the dump path. Each attempted stage is
recorded; a raised exception ends the run. The md5 and S3 stages have no
failure knob here: the run never gets past `encrypt_dump` (see below). -/
def dump_execute (s : SecretDict) (db_name dump_file enc_file extra : String)
    (bashRes : String → Except String Unit)
    (kmsEncrypt : String → String → Except String Unit) (env : Env) :
    Except String String × Env × List DumpStage :=
  let st0 := [DumpStage.secretFetch]
  let r1 := extract_dump s db_name dump_file extra bashRes env
  match r1.1 with
  | Except.error e => (Except.error e, r1.2, st0 ++ [DumpStage.extractDump])
  | Except.ok dfile =>
      let st1 := st0 ++ [DumpStage.extractDump, DumpStage.dumpMd5]
      match encrypt_dump kmsEncrypt dfile enc_file with
      | Except.error e => (Except.error e, r1.2, st1 ++ [DumpStage.encryptDump])
      | Except.ok _ =>
          (Except.ok dfile, r1.2,
           st1 ++ [DumpStage.encryptDump, DumpStage.encryptedMd5,
                   DumpStage.sendS3, DumpStage.cleanup])

/-- True iff an `Except` computation succeeded. -/
def exceptOk {ε α : Type} : Except ε α → Bool
  | Except.ok _ => true
  | Except.error _ => false

/-! ## Helper lemmas (shared) -/

lemma envGet_envSet (env : Env) (k v : String) :
    envGet (envSet env k v) k = some v := by
  simp [envGet, envSet, List.lookup]

lemma extract_dump_env_eq (s : SecretDict) (db_name dump_file extra : String)
    (bashRes : String → Except String Unit) (env : Env) :
    (extract_dump s db_name dump_file extra bashRes env).2
      = envSet env "PGPASSWORD" s.password := by
  unfold extract_dump
  cases hpf : pyFormat pgDumpTemplate (pgDumpKwargs s db_name dump_file extra) with
  | error e => simp
  | ok cmd =>
      cases hb : bashRes cmd with
      | error e => simp [hb]
      | ok u => cases u; simp [hb]

lemma dump_execute_env_eq (s : SecretDict)
    (db_name dump_file enc_file extra : String)
    (bashRes : String → Except String Unit)
    (kmsEncrypt : String → String → Except String Unit) (env : Env) :
    (dump_execute s db_name dump_file enc_file extra bashRes kmsEncrypt env).2.1
      = envSet env "PGPASSWORD" s.password := by
  unfold dump_execute
  cases h : (extract_dump s db_name dump_file extra bashRes env).1 with
  | error e => simpa [h] using extract_dump_env_eq s db_name dump_file extra bashRes env
  | ok dfile =>
      cases he : encrypt_dump kmsEncrypt dfile enc_file with
      | error e =>
          simpa [h, he] using extract_dump_env_eq s db_name dump_file extra bashRes env
      | ok r =>
          simpa [h, he] using extract_dump_env_eq s db_name dump_file extra bashRes env

/-! ## Claim theorems -/

/-- C1, counterexample. When the secrets service reports the client error
`ResourceNotFoundException`, `get_secret` does not fail with any error: the
except-handler swallows the `ClientError` and the method returns `None`. -/
theorem c1_counterexample_client_error_swallowed :
    get_secret (SMResponse.clientError "ResourceNotFoundException")
      = PyResult.retNone ∧
    raisesError (get_secret (SMResponse.clientError "ResourceNotFoundException"))
      = false :=
  ⟨rfl, rfl⟩

/-- C1, amended. On every client error `get_secret` returns `None` instead
of raising (the three documented error-code categories only select the
printed message, each of them does select one); on success it returns the
`SecretString` when present, otherwise the `SecretBinary`. -/
theorem c1_amended_get_secret_swallows_client_errors :
    (∀ code, get_secret (SMResponse.clientError code) = PyResult.retNone) ∧
    (∀ s b, get_secret (SMResponse.ok (some s) b) = PyResult.ret s) ∧
    (∀ b, get_secret (SMResponse.ok none (some b)) = PyResult.ret b) ∧
    (∀ n e, (clientErrorMessage n "ResourceNotFoundException" e).isSome = true ∧
            (clientErrorMessage n "InvalidRequestException" e).isSome = true ∧
            (clientErrorMessage n "InvalidParameterException" e).isSome = true) :=
  ⟨fun _ => rfl, fun _ _ => rfl, fun _ => rfl, fun _ _ => ⟨rfl, rfl, rfl⟩⟩

/-- C5. In `PostgresToPostgresOperator.execute` the destination hook is
built by popping `database` and `host` from the already-popped SOURCE
connection dict, so explicit destination overrides are ignored: with the
caller supplying `dest_db`/`dest_host` for the destination, the destination
hook carries no overrides and the connection is opened with the secret
host and dbname instead. -/
theorem c5_dest_hook_overrides_ignored :
    (pgToPg_hooks ⟨"aws_default", "src_secret", none, none⟩
        ⟨"aws_default", "dest_secret", some "dest_db", some "dest_host"⟩).2
      = ⟨"aws_default", "dest_secret", none, none⟩ ∧
    get_conn
        (pgToPg_hooks ⟨"aws_default", "src_secret", none, none⟩
          ⟨"aws_default", "dest_secret", some "dest_db", some "dest_host"⟩).2.schema
        (pgToPg_hooks ⟨"aws_default", "src_secret", none, none⟩
          ⟨"aws_default", "dest_secret", some "dest_db", some "dest_host"⟩).2.host
        ⟨"user1", "pw1", "secret_host", "secret_db", some (some 5432), "id1"⟩
      = Except.ok ⟨"secret_host", "user1", "pw1", "secret_db", 5432⟩ :=
  ⟨rfl, rfl⟩

/-- C6. In row-batch mode, when the source query fetched zero rows,
`execute` returns successfully and its trace contains no insert action and
no post-operator run, for every choice of pre- and post-operators. -/
theorem c6_empty_resultset_noop (sql : String) (pre post : Option String)
    (table : String) (insertRes : Except String Unit) :
    (pgToPg_execute sql pre post 0 table insertRes).1 = Except.ok () ∧
    (∀ t n, Ev.insertRows t n ∉ (pgToPg_execute sql pre post 0 table insertRes).2) ∧
    (∀ p, Ev.runPost p ∉ (pgToPg_execute sql pre post 0 table insertRes).2) := by
  cases pre <;> simp [pgToPg_execute]

/-- C7, counterexample. A secret payload whose `port` key is missing does
not lead to a connection on port 5432: `get_conn` raises `KeyError`
instead. -/
theorem c7_counterexample_missing_port_raises :
    get_conn none none ⟨"user1", "pw1", "host1", "db1", none, "id1"⟩
      = Except.error "KeyError: port" ∧
    exceptOk (get_conn none none ⟨"user1", "pw1", "host1", "db1", none, "id1"⟩)
      = false :=
  ⟨rfl, rfl⟩

/-- C7, amended. A payload whose `port` key is missing makes `get_conn`
raise `KeyError`; a payload whose `port` is present but falsy (`None` or
`0`) connects on port 5432; a payload with a truthy port connects on that
port. -/
theorem c7_amended_port_handling (sch h : Option String)
    (u pw ho db inst : String) (n : Int) (hn : n ≠ 0) :
    get_conn sch h ⟨u, pw, ho, db, none, inst⟩ = Except.error "KeyError: port" ∧
    get_conn sch h ⟨u, pw, ho, db, some none, inst⟩
      = Except.ok ⟨pyOrStr h ho, u, pw, pyOrStr sch db, 5432⟩ ∧
    get_conn sch h ⟨u, pw, ho, db, some (some 0), inst⟩
      = Except.ok ⟨pyOrStr h ho, u, pw, pyOrStr sch db, 5432⟩ ∧
    get_conn sch h ⟨u, pw, ho, db, some (some n), inst⟩
      = Except.ok ⟨pyOrStr h ho, u, pw, pyOrStr sch db, n⟩ := by
  refine ⟨rfl, rfl, rfl, ?_⟩
  simp [get_conn, pyOrInt, hn]

/-- C7, witness for the amended theorem at a concrete payload. -/
theorem c7_amended_port_handling_witness :
    get_conn none none ⟨"u", "p", "h", "d", none, "i"⟩
      = Except.error "KeyError: port" ∧
    get_conn none none ⟨"u", "p", "h", "d", some none, "i"⟩
      = Except.ok ⟨pyOrStr none "h", "u", "p", pyOrStr none "d", 5432⟩ ∧
    get_conn none none ⟨"u", "p", "h", "d", some (some 0), "i"⟩
      = Except.ok ⟨pyOrStr none "h", "u", "p", pyOrStr none "d", 5432⟩ ∧
    get_conn none none ⟨"u", "p", "h", "d", some (some 3), "i"⟩
      = Except.ok ⟨pyOrStr none "h", "u", "p", pyOrStr none "d", 3⟩ :=
  c7_amended_port_handling none none "u" "p" "h" "d" "i" 3 (by decide)

/-- C2, counterexample. A concrete relational-to-relational run that
terminates successfully: it opened the source connection and its trace
contains no close/release action, so the execution ends while still
holding an open connection. -/
theorem c2_counterexample_conn_left_open :
    (pgToPg_execute "q" none none 1 "t" (Except.ok ())).1 = Except.ok () ∧
    Ev.openConn "src" ∈ (pgToPg_execute "q" none none 1 "t" (Except.ok ())).2 ∧
    (pgToPg_execute "q" none none 1 "t" (Except.ok ())).2.any isCloseEv
      = false := by
  refine ⟨rfl, ?_, rfl⟩
  simp [pgToPg_execute]

/-- C2, amended. None of the three `execute` bodies ever closes or releases
the database connection it opens: on every path, successful or failing, the
trace contains no close action (release is left to interpreter shutdown and
garbage collection). -/
theorem c2_amended_no_close_on_any_path
    (sql : String) (pre post pre2 post2 : Option String)
    (totalRows : Nat) (table : String)
    (insertRes copyRes readRes copyRes2 : Except String Unit)
    (compress : Bool) :
    (pgToPg_execute sql pre post totalRows table insertRes).2.any isCloseEv
      = false ∧
    (pgToS3_execute copyRes compress).2.any isCloseEv = false ∧
    (s3ToPg_execute readRes pre2 post2 copyRes2).2.any isCloseEv = false := by
  refine ⟨?_, ?_, ?_⟩
  · unfold pgToPg_execute
    by_cases h : totalRows = 0 <;>
      cases pre <;> cases post <;> cases insertRes <;>
        simp [h, isCloseEv]
  · cases copyRes <;> cases compress <;> simp [pgToS3_execute, isCloseEv]
  · cases readRes <;> cases copyRes2 <;> cases pre2 <;> cases post2 <;>
      simp [s3ToPg_execute, isCloseEv]

/-- C3. `encrypt_dump` fails on every input: the name `AWSKMSHook` is bound
nowhere in the module, so the try-block raises `NameError`, which is caught
and re-raised as `AirflowException`; consequently `execute` always ends
with an error and never reaches the encrypted-file checksum, the S3 upload
or the cleanup stage. -/
theorem c3_encrypt_dump_always_fatal
    (kmsEncrypt : String → String → Except String Unit)
    (s : SecretDict) (db_name dump_file enc_file extra : String)
    (bashRes : String → Except String Unit) (env : Env) :
    encrypt_dump kmsEncrypt dump_file enc_file
      = Except.error
          "AirflowException: NameError: name AWSKMSHook is not defined" ∧
    exceptOk
        (dump_execute s db_name dump_file enc_file extra bashRes kmsEncrypt
          env).1 = false ∧
    DumpStage.encryptedMd5
      ∉ (dump_execute s db_name dump_file enc_file extra bashRes kmsEncrypt
          env).2.2 ∧
    DumpStage.sendS3
      ∉ (dump_execute s db_name dump_file enc_file extra bashRes kmsEncrypt
          env).2.2 ∧
    DumpStage.cleanup
      ∉ (dump_execute s db_name dump_file enc_file extra bashRes kmsEncrypt
          env).2.2 := by
  have henc : ∀ df ef : String, encrypt_dump kmsEncrypt df ef
      = Except.error
          "AirflowException: NameError: name AWSKMSHook is not defined" := by
    intro df ef
    rfl
  refine ⟨henc dump_file enc_file, ?_, ?_, ?_, ?_⟩ <;>
    · unfold dump_execute
      cases h : (extract_dump s db_name dump_file extra bashRes env).1 with
      | error e => simp [h, exceptOk]
      | ok dfile => simp [h, henc dfile enc_file, exceptOk]

/-- C4, counterexample. A concrete successful object-store-to-relational
import: the trace shows `autocommit` being set to `True` on the destination
connection before the load (it is never set to `False`), so autocommit is
enabled, not disabled, for the bulk columnar load. -/
theorem c4_counterexample_autocommit_enabled :
    (s3ToPg_execute (Except.ok ()) none none (Except.ok ())).1
      = Except.ok () ∧
    Ev.setAutocommit true
      ∈ (s3ToPg_execute (Except.ok ()) none none (Except.ok ())).2 ∧
    Ev.setAutocommit false
      ∉ (s3ToPg_execute (Except.ok ()) none none (Except.ok ())).2 := by
  refine ⟨rfl, ?_, ?_⟩ <;> simp [s3ToPg_execute]

/-- C4, amended. In `S3ToPostgresOperator.execute`, `autocommit` is set to
`True` (never to `False`) on the destination connection before the bulk
columnar load; after a successful load exactly one explicit commit is
issued, immediately following the load, and when the load fails no commit
is issued at all. -/
theorem c4_amended_autocommit_true_one_commit (pre post : Option String) :
    (s3ToPg_execute (Except.ok ()) pre post (Except.ok ())).2.countP isCommitEv
      = 1 ∧
    Ev.setAutocommit true
      ∈ (s3ToPg_execute (Except.ok ()) pre post (Except.ok ())).2 ∧
    Ev.setAutocommit false
      ∉ (s3ToPg_execute (Except.ok ()) pre post (Except.ok ())).2 ∧
    (∃ l1 l2, (s3ToPg_execute (Except.ok ()) pre post (Except.ok ())).2
        = l1 ++ Ev.copyFromFile :: Ev.commit :: l2) ∧
    (∀ e, Ev.commit
        ∉ (s3ToPg_execute (Except.ok ()) pre post (Except.error e)).2) := by
  cases pre with
  | none =>
      cases post with
      | none =>
          refine ⟨rfl, ?_, ?_, ?_, ?_⟩
          · simp [s3ToPg_execute]
          · simp [s3ToPg_execute]
          · exact ⟨[Ev.s3Read, Ev.skipHeader, Ev.openConn "dest",
                    Ev.setAutocommit true], [], rfl⟩
          · intro e; simp [s3ToPg_execute]
      | some q =>
          refine ⟨?_, ?_, ?_, ?_, ?_⟩
          · simp [s3ToPg_execute, isCommitEv]
          · simp [s3ToPg_execute]
          · simp [s3ToPg_execute]
          · exact ⟨[Ev.s3Read, Ev.skipHeader, Ev.openConn "dest",
                    Ev.setAutocommit true], [Ev.getFirst q], rfl⟩
          · intro e; simp [s3ToPg_execute]
  | some p =>
      cases post with
      | none =>
          refine ⟨?_, ?_, ?_, ?_, ?_⟩
          · simp [s3ToPg_execute, isCommitEv]
          · simp [s3ToPg_execute]
          · simp [s3ToPg_execute]
          · exact ⟨[Ev.s3Read, Ev.skipHeader, Ev.openConn "dest",
                    Ev.setAutocommit true, Ev.runPre p], [], rfl⟩
          · intro e; simp [s3ToPg_execute]
      | some q =>
          refine ⟨?_, ?_, ?_, ?_, ?_⟩
          · simp [s3ToPg_execute, isCommitEv]
          · simp [s3ToPg_execute]
          · simp [s3ToPg_execute]
          · exact ⟨[Ev.s3Read, Ev.skipHeader, Ev.openConn "dest",
                    Ev.setAutocommit true, Ev.runPre p], [Ev.getFirst q], rfl⟩
          · intro e; simp [s3ToPg_execute]

/-- C8. The command string `extract_dump` runs is exactly the documented
template instantiated with the secret host, the secret username, the
database name, the temp-file path and the extra parameters; it is identical
for any two secrets that differ only in the password (the format call has
no password placeholder — the stray `password=` keyword argument, which the
source fills with the HOST value, is ignored); the password reaches the
process only through the `PGPASSWORD` environment variable, which
`extract_dump` sets to the secret password. -/
theorem c8_dump_command_template_and_no_password
    (s : SecretDict) (db_name dump_file extra : String)
    (bashRes : String → Except String Unit) (env : Env) :
    pyFormat pgDumpTemplate (pgDumpKwargs s db_name dump_file extra)
      = Except.ok
          ("pg_dump -v -Ft -h " ++ (s.host ++ (" -U " ++ (s.username ++
            (" -d " ++ (db_name ++ (" -f " ++ (dump_file ++
              (" " ++ extra))))))))) ∧
    (∀ p, pyFormat pgDumpTemplate
            (pgDumpKwargs { s with password := p } db_name dump_file extra)
        = pyFormat pgDumpTemplate (pgDumpKwargs s db_name dump_file extra)) ∧
    envGet (extract_dump s db_name dump_file extra bashRes env).2 "PGPASSWORD"
      = some s.password := by
  refine ⟨?_, fun p => rfl, ?_⟩
  · simp [pyFormat, pgDumpTemplate, pgDumpKwargs, Except.map,
      String.append_empty, String.append_assoc]
  · rw [extract_dump_env_eq]
    exact envGet_envSet env "PGPASSWORD" s.password

/-- C9. `extract_dump` writes the secret password into the parent process
environment under `PGPASSWORD` and never reverts it: after `extract_dump`
and after the whole `execute` run — whatever the bash and encryption
outcomes, success or failure — the environment still maps `PGPASSWORD` to
the password. -/
theorem c9_pgpassword_persists
    (s : SecretDict) (db_name dump_file enc_file extra : String)
    (bashRes : String → Except String Unit)
    (kmsEncrypt : String → String → Except String Unit) (env : Env) :
    envGet (extract_dump s db_name dump_file extra bashRes env).2 "PGPASSWORD"
      = some s.password ∧
    envGet
        (dump_execute s db_name dump_file enc_file extra bashRes kmsEncrypt
          env).2.1 "PGPASSWORD"
      = some s.password := by
  constructor
  · rw [extract_dump_env_eq]
    exact envGet_envSet env "PGPASSWORD" s.password
  · rw [dump_execute_env_eq]
    exact envGet_envSet env "PGPASSWORD" s.password

/-- C10. `delete_file` never raises: whatever `os.remove` does (success or
any `OSError`, file-not-found included), the method returns normally,
having only logged. -/
theorem c10_delete_file_never_raises (r : RemoveResult) :
    ∃ logs, delete_file r = Except.ok logs := by
  cases r <;> exact ⟨_, rfl⟩

end PostgresPlugin
